import Mathlib

/-!
Shallow embedding of `src/jormungandr/src/network/bootstrap.rs`.

The module under verification is the bootstrap/catch-up subsystem of a
blockchain node.  Its collaborators (the gRPC peer client, the blockchain
storage/validation engine, the wall clock and the shutdown signal) are
external to the module; following the source, they are modelled as explicit
inputs: the blockchain engine as a record of state-passing operations over an
abstract storage state `σ`, the wall clock as a list of sampled times, the
pull stream as a list of items, and the cancellation signal as the poll-level
state of a `Shared` one-shot receiver.

Machine integers (`u64` counters) stay in `Nat`: the counters only ever grow
by block sizes / one per block, so 64-bit overflow is unreachable in any run
the claims quantify over, and the source performs no wrapping arithmetic on
them.  `f64` magnitudes in the progress report are modelled in `ℚ`; the
branch thresholds `1_000_000.0` and `1_000.0` and the divisors `1024` and
`1024*1024` are exactly representable in `f64`, so branch selection and
divisor choice in `ℚ` agree with the `f64` code.
-/

namespace Jormungandr

/-- Abstract block hash (`HeaderHash` in the source). -/
abbrev HeaderHash := Nat

/-- Human-readable block description (`HeaderDesc`). -/
abbrev HeaderDesc := String

/-- Opaque validated chain position handle (`Arc<Ref>` in the source;
shared immutable handle, so plain value semantics suffice). -/
abbrev Ref := Nat

/-- Payload of `grpc::ConnectError`. -/
abbrev ConnectError := Nat

/-- Payload of `network_core::error::Error`. -/
abbrev NetworkError := Nat

/-- Payload of `blockchain::Error`. -/
abbrev BlockchainError := Nat

/-- Network address of a peer. -/
abbrev Addr := Nat

/-- Block header: hash plus the description used by the progress tracker. -/
structure Header where
  hash : HeaderHash
  desc : HeaderDesc
deriving Repr, DecidableEq

/-- A block: its header and its serialized size
(`b.serialize_as_vec().unwrap().len()` in `BootstrapInfo::append_block`). -/
structure Block where
  header : Header
  size : Nat
deriving Repr, DecidableEq

/-- The bootstrap error taxonomy, constructor for constructor from the
source `enum Error`. -/
inductive Error where
  | Connect (e : ConnectError)
  | ClientNotReady (e : NetworkError)
  | PeersNotAvailable (e : NetworkError)
  | PullRequestFailed (e : NetworkError)
  | PullStreamFailed (e : NetworkError)
  | HeaderCheckFailed (e : BlockchainError)
  | BlockNotOnBranch (h : HeaderHash)
  | BlockMissingParent (h : HeaderHash)
  | GetCheckpointsFailed (e : BlockchainError)
  | ApplyBlockFailed (e : BlockchainError)
  | ChainSelectionFailed (e : BlockchainError)
  | Interrupted
deriving Repr, DecidableEq

/-- Source `blockchain::PreCheckedHeader`: classification of a header against the
current chain state, as matched in `handle_block`. -/
inductive PreCheckedHeader where
  | AlreadyPresent (cached_reference : Option Ref) (header : Header)
  | MissingParent (header : Header)
  | HeaderWithCache (header : Header) (parent_ref : Ref)
deriving Repr, DecidableEq

/-- Source `blockchain::CheckHeaderProof`, passed to `post_check_header`. -/
inductive CheckHeaderProof where
  | Enabled
  | Disabled
deriving Repr, DecidableEq

/-- Result of `post_check_header`; exposes its header (used for logging). -/
structure PostCheckedHeader where
  header : Header
deriving Repr, DecidableEq

/-- Result of `apply_and_store_block`; exposes the new chain reference via
`cached_ref()`. -/
structure AppliedBlock where
  cached_ref : Ref
deriving Repr, DecidableEq

/-- The blockchain storage/validation collaborator (`Blockchain` in the
source).  The source mutates it through `&self` / `&mut self` interior
state; here each operation passes the abstract storage state `σ`
explicitly.  `block0` is `blockchain.block0()`. -/
structure BlockchainOps (σ : Type) where
  block0 : HeaderHash
  pre_check_header : σ → Header → Bool → Except BlockchainError (PreCheckedHeader × σ)
  post_check_header : σ → Header → Ref → CheckHeaderProof → Except BlockchainError (PostCheckedHeader × σ)
  apply_and_store_block : σ → PostCheckedHeader → Block → Except BlockchainError (AppliedBlock × σ)
  process_new_ref : σ → Ref → Except BlockchainError σ

/-- Source `handle_block`: pre-check the header, then either accept the cached
reference, fail on orphaned/disconnected blocks, or post-check and apply.
Mirrors the `match` in the source line for line. -/
def handle_block {σ : Type} (ops : BlockchainOps σ) (s : σ) (block : Block) :
    Except Error (Ref × σ) :=
  match ops.pre_check_header s block.header true with
  | .error e => .error (.HeaderCheckFailed e)
  | .ok (pre_checked, s1) =>
    match pre_checked with
    | .AlreadyPresent (some block_ref) _ => .ok (block_ref, s1)
    | .AlreadyPresent none header => .error (.BlockNotOnBranch header.hash)
    | .MissingParent header => .error (.BlockMissingParent header.hash)
    | .HeaderWithCache header parent_ref =>
      match ops.post_check_header s1 header parent_ref .Enabled with
      | .error e => .error (.HeaderCheckFailed e)
      | .ok (post_checked, s2) =>
        match ops.apply_and_store_block s2 post_checked block with
        | .error e => .error (.ApplyBlockFailed e)
        | .ok (applied, s3) => .ok (applied.cached_ref, s3)

/-! ## Progress tracker (`BootstrapInfo`) -/

/-- Source `struct BootstrapInfo`.  Timestamps (`std::time::SystemTime`) are
modelled as rationals; byte/block counters are the source's `u64` counters. -/
structure BootstrapInfo where
  last_reported : ℚ
  last_bytes_received : Nat
  bytes_received : Nat
  block_received : Nat
  last_block_description : Option HeaderDesc
deriving Repr, DecidableEq

/-- Source `BootstrapInfo::new()`; `now` is the `SystemTime::now()` sample. -/
def BootstrapInfo.new (now : ℚ) : BootstrapInfo :=
  { last_reported := now
    last_bytes_received := 0
    bytes_received := 0
    block_received := 0
    last_block_description := none }

/-- Source `BootstrapInfo::append_block`. -/
def BootstrapInfo.append_block (info : BootstrapInfo) (b : Block) : BootstrapInfo :=
  { info with
    bytes_received := info.bytes_received + b.size
    block_received := info.block_received + 1
    last_block_description := some b.header.desc }

/-- Unit suffix chosen by `print_sz`. -/
inductive SzUnit where
  | mb
  | kb
  | b
deriving Repr, DecidableEq

/-- A rendered magnitude: the unit suffix and the scaled value
(`format!` string formatting itself is not modelled). -/
structure Sz where
  unit : SzUnit
  value : ℚ
deriving Repr, DecidableEq

/-- Function `print_sz` from `BootstrapInfo::report`: strict decimal thresholds,
binary divisors. -/
def print_sz (n : ℚ) : Sz :=
  if n > 1000000 then ⟨.mb, n / (1024 * 1024)⟩
  else if n > 1000 then ⟨.kb, n / 1024⟩
  else ⟨.b, n⟩

/-- Source `SystemTime::duration_since`: fails iff the clock moved backward
(`current` is earlier than `earlier`). -/
def duration_since (current earlier : ℚ) : Option ℚ :=
  if earlier ≤ current then some (current - earlier) else none

/-- One line of `BootstrapInfo::report` output: the bytes-since-last-report
magnitude, the throughput magnitude (`none` renders as `"N/A"`), and the
last block description (`none` would trip the source's `expect`). -/
structure ReportLine where
  bytes : Sz
  kbs : Option Sz
  desc : Option HeaderDesc
deriving Repr, DecidableEq

/-- Source `BootstrapInfo::report`: compute the deltas, render them, and roll the
`last_reported` / `last_bytes_received` fields forward.  `current` is the
`SystemTime::now()` sample taken inside `report`. -/
def BootstrapInfo.report (info : BootstrapInfo) (current : ℚ) :
    BootstrapInfo × ReportLine :=
  let time_diff := duration_since current info.last_reported
  let bytes_diff : ℚ := (info.bytes_received - info.last_bytes_received : Nat)
  let bytes := print_sz bytes_diff
  let kbs := time_diff.map (fun td => print_sz (bytes_diff / td))
  ({ info with
      last_reported := current
      last_bytes_received := info.bytes_received },
   { bytes := bytes, kbs := kbs, desc := info.last_block_description })

/-! ## Cancellable stream merger

The source wraps the block stream and the `Shared<Receiver<()>>` stopper
into one stream via `stream::poll_fn`: each poll first polls the stopper and
only falls through to the block stream while the stopper is pending.  One
poll is modelled as a pure function of what polling each source would
return. -/

/-- What one poll of the `Shared` cancellation receiver returns:
still pending, fired (`Ok(())`), or sender dropped without firing
(`Err(Canceled)`). -/
inductive StopperPoll where
  | pending
  | fired
  | dropped
deriving Repr, DecidableEq

/-- What one poll of the underlying block stream would return. -/
inductive StreamPoll where
  | pending
  | ready (item : Option (Except NetworkError Block))
deriving Repr

/-- Outcome of one poll of the merged stream. -/
inductive MergedPoll where
  | pending
  | item (x : Except Error Block)
  | ended
  | fatal (msg : String)
deriving Repr

/-- One poll of the merged stream built in `bootstrap_from_stream`: the
stopper is polled first; only while it is pending is the block stream
polled (with stream errors mapped to `PullStreamFailed`); a fired stopper
yields `Err(Interrupted)` as an item; a dropped stopper is the source's
`panic!("failed to wait for SIGINT")`, modelled as a `fatal` outcome
distinct from every item. -/
def merged_poll (stopper : StopperPoll) (s : StreamPoll) : MergedPoll :=
  match stopper with
  | .pending =>
    match s with
    | .pending => .pending
    | .ready none => .ended
    | .ready (some (.ok block)) => .item (.ok block)
    | .ready (some (.error e)) => .item (.error (.PullStreamFailed e))
  | .fired => .item (.error .Interrupted)
  | .dropped => .fatal "failed to wait for SIGINT"

/-- The `Shared` future contract: once a poll observes the receiver
completed (fired or dropped), every later poll observes the same result. -/
def SharedTrace (f : Nat → StopperPoll) : Prop :=
  ∀ k, (f k = .fired → f (k + 1) = .fired) ∧ (f k = .dropped → f (k + 1) = .dropped)

/-! ## Bootstrap stream-consumption loop -/

/-- Constant `PROCESS_LOGGING_DISTANCE` from `bootstrap_from_stream`. -/
def PROCESS_LOGGING_DISTANCE : Nat := 2500

/-- Observable outcome of one run of the `bootstrap_from_stream` loop:
the returned `Result`, the trace of references handed to
`blockchain::process_new_ref` (in call order), the block counts at which a
progress report was emitted, and the final tracker and storage states. -/
structure StreamOutcome (σ : Type) where
  result : Except Error Unit
  tipUpdates : List Ref
  reports : List Nat
  info : BootstrapInfo
  state : σ
deriving Repr

/-- The loop's exit path on a per-block error (`match result { Err(err) =>
... }` in the source): if some block was already applied, attempt
`process_new_ref` with the last good reference, log-and-ignore its failure,
and return the original error; otherwise return the error directly. -/
def haltWith {σ : Type} (ops : BlockchainOps σ) (s : σ) (info : BootstrapInfo)
    (acc : Option Ref) (e : Error) : StreamOutcome σ :=
  match acc with
  | some parent_tip =>
    match ops.process_new_ref s parent_tip with
    | .ok s1 => ⟨.error e, [parent_tip], [], info, s1⟩
    | .error _ => ⟨.error e, [parent_tip], [], info, s⟩
  | none => ⟨.error e, [], [], info, s⟩

/-- The loop's exit path on stream exhaustion: commit the last good
reference as the tip (`ChainSelectionFailed` on failure), or succeed with
no tip update if no block was applied. -/
def finishLoop {σ : Type} (ops : BlockchainOps σ) (s : σ) (info : BootstrapInfo)
    (acc : Option Ref) : StreamOutcome σ :=
  match acc with
  | some parent_tip =>
    match ops.process_new_ref s parent_tip with
    | .ok s1 => ⟨.ok (), [parent_tip], [], info, s1⟩
    | .error e => ⟨.error (.ChainSelectionFailed e), [parent_tip], [], info, s⟩
  | none => ⟨.ok (), [], [], info, s⟩

/-- The per-block report step: after `append_block`, when the block count
hits the logging cadence, run `report` with the next wall-clock sample
(reusing `last_reported` if the sample list is exhausted — the sample value
never influences control flow) and record the count at which the report
fired.  Returns the remaining clock, the updated tracker, and the report
event (empty or singleton). -/
def stepReport (clock : List ℚ) (info : BootstrapInfo) :
    List ℚ × BootstrapInfo × List Nat :=
  if info.block_received % PROCESS_LOGGING_DISTANCE = 0 then
    match clock with
    | t :: ts => (ts, (info.report t).1, [info.block_received])
    | [] => ([], (info.report info.last_reported).1, [info.block_received])
  else (clock, info, [])

/-- Prepend this step's report events to the rest of the run's outcome. -/
def withReports {σ : Type} (reps : List Nat) (out : StreamOutcome σ) : StreamOutcome σ :=
  { out with reports := reps ++ out.reports }

/-- The `while let Some(block_result) = stream.next().await` loop of
`bootstrap_from_stream`, over the items yielded by the merged stream
(`Ok(block)` or a mapped error, `Interrupted` included).  Genesis blocks
are skipped (`continue`), accepted blocks are counted and periodically
reported before `handle_block` runs, a per-block error exits through
`haltWith`, and exhaustion exits through `finishLoop`. -/
def bootstrap_loop {σ : Type} (ops : BlockchainOps σ) :
    List ℚ → σ → BootstrapInfo → Option Ref → List (Except Error Block) →
    StreamOutcome σ
  | _clock, s, info, acc, [] => finishLoop ops s info acc
  | _clock, s, info, acc, .error e :: _its => haltWith ops s info acc e
  | clock, s, info, acc, .ok block :: its =>
    if block.header.hash = ops.block0 then
      bootstrap_loop ops clock s info acc its
    else
      let info1 := info.append_block block
      let sr := stepReport clock info1
      match handle_block ops s block with
      | .ok (parent_tip, s1) =>
        withReports sr.2.2 (bootstrap_loop ops sr.1 s1 sr.2.1 (some parent_tip) its)
      | .error e => withReports sr.2.2 (haltWith ops s sr.2.1 acc e)

/-- Source `bootstrap_from_stream`, given the storage state, the initial
`SystemTime::now()` sample `t0`, later report-time samples, and the item
sequence produced by the merged stream. -/
def bootstrap_from_stream {σ : Type} (ops : BlockchainOps σ) (t0 : ℚ)
    (clock : List ℚ) (s : σ) (items : List (Except Error Block)) :
    StreamOutcome σ :=
  bootstrap_loop ops clock s (BootstrapInfo.new t0) none items

/-- The state/last-good-reference evolution of the loop on a prefix of
items that raises no per-block error: each `Ok` non-genesis block must get
through `handle_block`, threading the storage state and recording the
reference it produced; genesis items are skipped; a stream error or
`handle_block` failure surfaces as that error. -/
def applyItems {σ : Type} (ops : BlockchainOps σ) :
    σ → Option Ref → List (Except Error Block) →
    Except Error (Option Ref × σ)
  | s, acc, [] => .ok (acc, s)
  | _s, _acc, .error e :: _its => .error e
  | s, acc, .ok block :: its =>
    if block.header.hash = ops.block0 then
      applyItems ops s acc its
    else
      match handle_block ops s block with
      | .error e => .error e
      | .ok (parent_tip, s1) => applyItems ops s1 (some parent_tip) its

/-- How a single item makes the loop halt from storage state `s`: a stream
error halts with that error; a non-genesis block whose `handle_block`
fails halts with that failure; genesis blocks and successfully handled
blocks do not halt. -/
def itemError {σ : Type} (ops : BlockchainOps σ) (s : σ) :
    Except Error Block → Option Error
  | .error e => some e
  | .ok block =>
    if block.header.hash = ops.block0 then none
    else
      match handle_block ops s block with
      | .error e => some e
      | .ok _ => none

/-! ## Peer discovery (`peers_from_trusted_peer`) -/

/-- Local peer descriptor (`settings::start::network::Peer`). -/
structure Peer where
  connection : Addr
deriving Repr, DecidableEq

/-- Source `Peer::new`. -/
def Peer.new (addr : Addr) : Peer := ⟨addr⟩

/-- One entry of the peer list returned by the remote `peers()` call. -/
structure GossipNode where
  addr : Addr
deriving Repr, DecidableEq

/-- Response of the remote `peers()` call. -/
structure PeersResponse where
  peers : List GossipNode
deriving Repr, DecidableEq

/-- A connected client after a successful handshake: its `peers()` call
either fails at the protocol level or returns the peer list. -/
structure ReadyClient where
  peers : Except NetworkError PeersResponse
deriving Repr

/-- A freshly connected client: its `ready()` wait either fails or yields
the ready client. -/
structure ConnectedClient where
  ready : Except NetworkError ReadyClient
deriving Repr

/-- Source `peers_from_trusted_peer`: connect, wait for readiness, request the
peer list, and map each returned address through `Peer::new`, with each
stage's failure mapped to its own error constructor and no retry at any
stage. -/
def peers_from_trusted_peer (connect_result : Except ConnectError ConnectedClient) :
    Except Error (List Peer) :=
  match connect_result with
  | .error e => .error (.Connect e)
  | .ok client =>
    match client.ready with
    | .error e => .error (.ClientNotReady e)
    | .ok client1 =>
      match client1.peers with
      | .error e => .error (.PeersNotAvailable e)
      | .ok peers => .ok (peers.peers.map (fun peer => Peer.new peer.addr))

/-! ## Bootstrap orchestrator (`bootstrap_from_peer`) -/

/-- Checkpoint handed to `pull_blocks_to_tip`. -/
abbrev Checkpoint := Nat

/-- A client whose readiness handshake succeeded; `pull_blocks_to_tip`
either fails at the request level or yields the block stream `S`. -/
structure PullClient (S : Type) where
  pull_blocks_to_tip : List Checkpoint → Except NetworkError S

/-- A connected block client: `ready()` either fails or yields the pull
client. -/
structure BlockClient (S : Type) where
  ready : Except NetworkError (PullClient S)

/-- The collaborators of the setup phase of `bootstrap_from_peer`:
`grpc::connect` and `blockchain.get_checkpoints(tip.branch())` (the latter
infallible in the source — it is wrapped in `Ok` before `try_join`). -/
structure PeerSetupOps (S : Type) where
  connect : Except ConnectError (BlockClient S)
  get_checkpoints : List Checkpoint

/-- The `stream_future` block of `bootstrap_from_peer`: connect
(`Connect` on failure), wait for readiness joined with the checkpoint
computation (`ClientNotReady` on failure), then request the pull stream
(`PullRequestFailed` on failure). -/
def stream_future {S : Type} (ops : PeerSetupOps S) : Except Error S :=
  match ops.connect with
  | .error e => .error (.Connect e)
  | .ok client =>
    match client.ready with
    | .error e => .error (.ClientNotReady e)
    | .ok client1 =>
      match client1.pull_blocks_to_tip ops.get_checkpoints with
      | .error e => .error (.PullRequestFailed e)
      | .ok stream => .ok stream

/-- Which side of `select(stream_future.boxed(), bootstrap_stopper)`
completes first: the setup future, or the stopper (fired, or dropped
without firing). -/
inductive RaceWinner where
  | setupFirst
  | stopperFired
  | stopperDropped
deriving Repr, DecidableEq

/-- Final outcome of `bootstrap_from_peer`, with the source's
`panic!("failed to wait for SIGINT")` modelled as a `fatal` outcome
distinct from every `Result` value. -/
inductive Outcome (α : Type) where
  | ok (a : α)
  | err (e : Error)
  | fatal (msg : String)
deriving Repr, DecidableEq

/-- Source `bootstrap_from_peer`: race the setup sequence against the stopper.
If setup wins, a setup error propagates, and otherwise streaming runs on
the obtained stream with the very stopper value this function received
(`Either::Left((stream_result, bootstrap_stopper))` hands the un-consumed
stopper back); if the stopper wins having fired, return `Interrupted`; if
it wins because its sender was dropped, abort fatally. -/
def bootstrap_from_peer {S T : Type} (ops : PeerSetupOps S) (stopper : T)
    (runStream : S → T → Outcome Unit) : RaceWinner → Outcome Unit
  | .setupFirst =>
    match stream_future ops with
    | .error e => .err e
    | .ok stream => runStream stream stopper
  | .stopperFired => .err .Interrupted
  | .stopperDropped => .fatal "failed to wait for SIGINT"

/-! ## Concrete instances used to exercise the theorems -/

/-- A concrete header. -/
def exHeader (h : HeaderHash) : Header := ⟨h, "block"⟩

/-- A concrete block. -/
def exBlock (h : HeaderHash) (sz : Nat) : Block := ⟨exHeader h, sz⟩

/-- A concrete blockchain collaborator over storage state `Nat`: every
header is classified as new, validation and application always succeed,
the produced reference is the block's hash, and chain selection succeeds. -/
def exOps : BlockchainOps Nat :=
  { block0 := 0
    pre_check_header := fun s h _ => .ok (.HeaderWithCache h s, s)
    post_check_header := fun s h _ _ => .ok (⟨h⟩, s)
    apply_and_store_block := fun s _ b => .ok (⟨b.header.hash⟩, s + 1)
    process_new_ref := fun s r => .ok (s + r) }

/-- A concrete setup collaborator whose connect/readiness/pull phases all
succeed and whose pull stream handle is the number `7`. -/
def exSetup : PeerSetupOps Nat :=
  { connect := .ok { ready := .ok { pull_blocks_to_tip := fun _ => .ok 7 } }
    get_checkpoints := [1, 2] }

/-- A concrete streaming continuation recording which stream handle and
stopper it was run with. -/
def exRun (stream : Nat) (stopper : Nat) : Outcome Unit :=
  if stream = 7 ∧ stopper = 5 then .ok () else .err .Interrupted

/-- A concrete connected discovery client returning two peer addresses. -/
def exConnected : ConnectedClient :=
  { ready := .ok { peers := .ok { peers := [⟨3⟩, ⟨9⟩] } } }

/-- A tracker state as it stands after 2499 accepted blocks. -/
def exInfo2499 : BootstrapInfo :=
  { last_reported := 0
    last_bytes_received := 0
    bytes_received := 0
    block_received := 2499
    last_block_description := none }

/-! ## Structural lemmas about the loop -/

lemma withReports_result {σ : Type} (reps : List Nat) (out : StreamOutcome σ) :
    (withReports reps out).result = out.result := rfl

lemma withReports_tipUpdates {σ : Type} (reps : List Nat) (out : StreamOutcome σ) :
    (withReports reps out).tipUpdates = out.tipUpdates := rfl

lemma haltWith_result {σ : Type} (ops : BlockchainOps σ) (s : σ)
    (info : BootstrapInfo) (acc : Option Ref) (e : Error) :
    (haltWith ops s info acc e).result = .error e := by
  cases acc with
  | none => rfl
  | some r =>
    unfold haltWith
    cases h : ops.process_new_ref s r <;> simp only [h]

lemma haltWith_tipUpdates {σ : Type} (ops : BlockchainOps σ) (s : σ)
    (info : BootstrapInfo) (acc : Option Ref) (e : Error) :
    (haltWith ops s info acc e).tipUpdates = acc.toList := by
  cases acc with
  | none => rfl
  | some r =>
    unfold haltWith
    cases h : ops.process_new_ref s r <;> simp [h]

/-- Running the loop on `pre ++ rest` when `pre` raises no per-block error
is, up to the clock and the tracker state, running it on `rest` from the
state and last-good reference that `pre` produced. -/
lemma bootstrap_loop_append {σ : Type} (ops : BlockchainOps σ) :
    ∀ (pre : List (Except Error Block)) (clock : List ℚ) (s : σ)
      (info : BootstrapInfo) (acc acc' : Option Ref) (s' : σ)
      (rest : List (Except Error Block)),
      applyItems ops s acc pre = .ok (acc', s') →
      ∃ clock' info',
        (bootstrap_loop ops clock s info acc (pre ++ rest)).result =
          (bootstrap_loop ops clock' s' info' acc' rest).result ∧
        (bootstrap_loop ops clock s info acc (pre ++ rest)).tipUpdates =
          (bootstrap_loop ops clock' s' info' acc' rest).tipUpdates := by
  intro pre
  induction pre with
  | nil =>
    intro clock s info acc acc' s' rest h
    simp only [applyItems, Except.ok.injEq, Prod.mk.injEq] at h
    obtain ⟨h1, h2⟩ := h
    subst h1; subst h2
    exact ⟨clock, info, rfl, rfl⟩
  | cons it its ih =>
    intro clock s info acc acc' s' rest h
    cases it with
    | error e => simp [applyItems] at h
    | ok b =>
      by_cases hg : b.header.hash = ops.block0
      · rw [List.cons_append]
        simp only [applyItems, if_pos hg] at h
        have := ih clock s info acc acc' s' rest h
        simpa only [bootstrap_loop, if_pos hg] using this
      · cases hb : handle_block ops s b with
        | error e => simp [applyItems, hg, hb] at h
        | ok rs =>
          obtain ⟨r, s1⟩ := rs
          have h' : applyItems ops s1 (some r) its = .ok (acc', s') := by
            simpa only [applyItems, if_neg hg, hb] using h
          obtain ⟨clock', info', hres, htip⟩ :=
            ih (stepReport clock (info.append_block b)).1 s1
              (stepReport clock (info.append_block b)).2.1 (some r) acc' s' rest h'
          refine ⟨clock', info', ?_, ?_⟩
          · rw [List.cons_append]
            simp only [bootstrap_loop, if_neg hg, hb, withReports_result]
            exact hres
          · rw [List.cons_append]
            simp only [bootstrap_loop, if_neg hg, hb, withReports_tipUpdates]
            exact htip

/-- Splitting `applyItems` across an append. -/
lemma applyItems_append {σ : Type} (ops : BlockchainOps σ) :
    ∀ (xs : List (Except Error Block)) (s : σ) (acc : Option Ref)
      (ys : List (Except Error Block)) (out : Option Ref × σ),
      applyItems ops s acc (xs ++ ys) = .ok out →
      ∃ mid : Option Ref × σ,
        applyItems ops s acc xs = .ok mid ∧
        applyItems ops mid.2 mid.1 ys = .ok out := by
  intro xs
  induction xs with
  | nil =>
    intro s acc ys out h
    exact ⟨(acc, s), rfl, h⟩
  | cons it its ih =>
    intro s acc ys out h
    cases it with
    | error e => simp [applyItems] at h
    | ok b =>
      by_cases hg : b.header.hash = ops.block0
      · rw [List.cons_append] at h
        simp only [applyItems, if_pos hg] at h ⊢
        exact ih s acc ys out h
      · cases hb : handle_block ops s b with
        | error e =>
          rw [List.cons_append] at h
          simp [applyItems, hg, hb] at h
        | ok rs =>
          obtain ⟨r, s1⟩ := rs
          have h' : applyItems ops s1 (some r) (its ++ ys) = .ok out := by
            simpa only [List.cons_append, applyItems, if_neg hg, hb] using h
          obtain ⟨mid, h1, h2⟩ := ih s1 (some r) ys out h'
          refine ⟨mid, ?_, h2⟩
          simpa only [applyItems, if_neg hg, hb] using h1

/-- The report event of one `stepReport` call: the block count, recorded
exactly when the count hits the logging cadence. -/
lemma stepReport_events (clock : List ℚ) (info : BootstrapInfo) :
    (stepReport clock info).2.2 =
      if info.block_received % PROCESS_LOGGING_DISTANCE = 0
      then [info.block_received] else [] := by
  unfold stepReport
  by_cases h : info.block_received % PROCESS_LOGGING_DISTANCE = 0
  · rw [if_pos h, if_pos h]
    cases clock <;> rfl
  · rw [if_neg h, if_neg h]

/-! ## Claim theorems -/

/-- C1: if the block-processing loop of `bootstrap_from_stream` halts with
a per-block error (stream error, classification/validation/application
error, or `Interrupted`) after a prefix of items that applied without
error, then: when at least one block was successfully applied,
`process_new_ref` is invoked exactly with the last successfully applied
reference (`tipUpdates = [r]`) and the returned value is the original
per-block error — independently of whether that `process_new_ref` call
succeeds, since the conclusion holds for every `ops.process_new_ref`;
when no block was ever applied (`acc' = none`), no tip update is attempted
(`tipUpdates = []`) and the original error is returned directly. -/
theorem C1_per_block_error_commits_then_returns_original {σ : Type}
    (ops : BlockchainOps σ) (t0 : ℚ) (clock : List ℚ) (s : σ)
    (pre : List (Except Error Block)) (it : Except Error Block)
    (rest : List (Except Error Block)) (acc' : Option Ref) (s' : σ) (e : Error)
    (hpre : applyItems ops s none pre = .ok (acc', s'))
    (hit : itemError ops s' it = some e) :
    (bootstrap_from_stream ops t0 clock s (pre ++ it :: rest)).result = .error e ∧
    (bootstrap_from_stream ops t0 clock s (pre ++ it :: rest)).tipUpdates = acc'.toList := by
  obtain ⟨clock', info', hres, htip⟩ :=
    bootstrap_loop_append ops pre clock s (BootstrapInfo.new t0) none acc' s' (it :: rest) hpre
  have H : (bootstrap_loop ops clock' s' info' acc' (it :: rest)).result = .error e ∧
      (bootstrap_loop ops clock' s' info' acc' (it :: rest)).tipUpdates = acc'.toList := by
    cases it with
    | error e0 =>
      have he : e0 = e := by simpa [itemError] using hit
      subst he
      constructor
      · simp only [bootstrap_loop]
        exact haltWith_result ops s' info' acc' e0
      · simp only [bootstrap_loop]
        exact haltWith_tipUpdates ops s' info' acc' e0
    | ok b =>
      by_cases hg : b.header.hash = ops.block0
      · simp [itemError, hg] at hit
      · cases hb : handle_block ops s' b with
        | ok rs => simp [itemError, hg, hb] at hit
        | error e1 =>
          have he : e1 = e := by simpa [itemError, hg, hb] using hit
          subst he
          constructor
          · simp only [bootstrap_loop, if_neg hg, hb, withReports_result]
            exact haltWith_result ops s' _ acc' e1
          · simp only [bootstrap_loop, if_neg hg, hb, withReports_tipUpdates]
            exact haltWith_tipUpdates ops s' _ acc' e1
  exact ⟨by rw [bootstrap_from_stream, hres]; exact H.1,
         by rw [bootstrap_from_stream, htip]; exact H.2⟩

/-- Exercises C1 on a concrete run: one valid block (producing reference 1)
followed by an `Interrupted` item; the run returns `Interrupted` and
`process_new_ref` is invoked exactly with reference 1. -/
theorem C1_witness :
    (bootstrap_from_stream exOps 0 [] 0
        ([.ok (exBlock 1 10)] ++ .error .Interrupted :: [])).result =
      .error .Interrupted ∧
    (bootstrap_from_stream exOps 0 [] 0
        ([.ok (exBlock 1 10)] ++ .error .Interrupted :: [])).tipUpdates = [1] :=
  C1_per_block_error_commits_then_returns_original exOps 0 [] 0
    [.ok (exBlock 1 10)] (.error .Interrupted) [] (some 1) 1 .Interrupted rfl rfl

/-- C2: if every item of the stream processes without a per-block error
(`applyItems` succeeds, skipping genesis blocks and threading
`handle_block` through all the rest), then: when at least one block was
applicable, `process_new_ref` is called exactly once, with the reference
produced for the last applicable block (`tipUpdates = [r]`), and the run
returns success, mapping a chain-selection failure to
`ChainSelectionFailed`; when zero blocks were applicable it returns
success with no tip update; and when the stream ends in a non-genesis
block, the committed reference is literally the one `handle_block`
produced by applying that last block. -/
theorem C2_exhausted_stream_commits_exactly_once {σ : Type}
    (ops : BlockchainOps σ) (t0 : ℚ) (clock : List ℚ) (s : σ)
    (items : List (Except Error Block)) (acc' : Option Ref) (s' : σ)
    (h : applyItems ops s none items = .ok (acc', s')) :
    (∀ r, acc' = some r →
       (bootstrap_from_stream ops t0 clock s items).tipUpdates = [r] ∧
       (bootstrap_from_stream ops t0 clock s items).result =
         (match ops.process_new_ref s' r with
          | .ok _ => Except.ok ()
          | .error e => Except.error (Error.ChainSelectionFailed e))) ∧
    (acc' = none →
       (bootstrap_from_stream ops t0 clock s items).tipUpdates = [] ∧
       (bootstrap_from_stream ops t0 clock s items).result = .ok ()) ∧
    (∀ pre b, items = pre ++ [.ok b] → b.header.hash ≠ ops.block0 →
       ∃ mid : Option Ref × σ, ∃ r : Ref,
         applyItems ops s none pre = .ok mid ∧
         handle_block ops mid.2 b = .ok (r, s') ∧ acc' = some r) := by
  obtain ⟨clock', info', hres, htip⟩ := by
    have h2 := bootstrap_loop_append ops items clock s (BootstrapInfo.new t0) none acc' s' [] h
    rwa [List.append_nil] at h2
  refine ⟨?_, ?_, ?_⟩
  · intro r hr
    subst hr
    constructor
    · rw [bootstrap_from_stream, htip]
      simp only [bootstrap_loop, finishLoop]
      cases hp : ops.process_new_ref s' r <;> simp [hp]
    · rw [bootstrap_from_stream, hres]
      simp only [bootstrap_loop, finishLoop]
      cases hp : ops.process_new_ref s' r <;> simp [hp]
  · intro hn
    subst hn
    constructor
    · rw [bootstrap_from_stream, htip]
      simp [bootstrap_loop, finishLoop]
    · rw [bootstrap_from_stream, hres]
      simp [bootstrap_loop, finishLoop]
  · intro pre b hitems hg
    subst hitems
    obtain ⟨mid, h1, h2⟩ := applyItems_append ops pre s none [.ok b] (acc', s') h
    cases hb : handle_block ops mid.2 b with
    | error e => simp [applyItems, hg, hb] at h2
    | ok rs =>
      obtain ⟨r, s1⟩ := rs
      have hmk : some r = acc' ∧ s1 = s' := by
        simpa [applyItems, hg, hb] using h2
      refine ⟨mid, r, h1, ?_, hmk.1.symm⟩
      rw [hb, hmk.2]

/-- Exercises C2 on a concrete run: two valid blocks with a genesis block
re-delivered in between; the tip is committed exactly once, to the
reference produced for the last block, and the run succeeds. -/
theorem C2_witness :
    (bootstrap_from_stream exOps 0 [] 0
        [.ok (exBlock 1 10), .ok (exBlock 0 4), .ok (exBlock 2 20)]).tipUpdates = [2] ∧
    (bootstrap_from_stream exOps 0 [] 0
        [.ok (exBlock 1 10), .ok (exBlock 0 4), .ok (exBlock 2 20)]).result = .ok () :=
  (C2_exhausted_stream_commits_exactly_once exOps 0 [] 0
      [.ok (exBlock 1 10), .ok (exBlock 0 4), .ok (exBlock 2 20)]
      (some 2) 2 rfl).1 2 rfl

/-- C5: `handle_block` returns the existing reference (with no further
collaborator call) on `AlreadyPresent` with a cached reference, fails with
`BlockNotOnBranch` on `AlreadyPresent` without one, fails with
`BlockMissingParent` on a missing parent, and for a new header runs
`post_check_header` (failure mapped to `HeaderCheckFailed`) then
`apply_and_store_block` (failure mapped to `ApplyBlockFailed`), returning
the newly produced reference. -/
theorem C5_handle_block_classification {σ : Type} (ops : BlockchainOps σ)
    (s : σ) (b : Block) (pre : PreCheckedHeader) (s1 : σ)
    (hpre : ops.pre_check_header s b.header true = .ok (pre, s1)) :
    handle_block ops s b =
      (match pre with
       | .AlreadyPresent (some block_ref) _ => .ok (block_ref, s1)
       | .AlreadyPresent none header => .error (.BlockNotOnBranch header.hash)
       | .MissingParent header => .error (.BlockMissingParent header.hash)
       | .HeaderWithCache header parent_ref =>
         match ops.post_check_header s1 header parent_ref .Enabled with
         | .error e => .error (.HeaderCheckFailed e)
         | .ok (post_checked, s2) =>
           match ops.apply_and_store_block s2 post_checked b with
           | .error e => .error (.ApplyBlockFailed e)
           | .ok (applied, s3) => .ok (applied.cached_ref, s3)) := by
  unfold handle_block
  simp only [hpre]
  cases pre with
  | AlreadyPresent cr header => cases cr <;> rfl
  | MissingParent header => rfl
  | HeaderWithCache header parent_ref =>
    cases hpost : ops.post_check_header s1 header parent_ref .Enabled with
    | error e => simp [hpost]
    | ok ps =>
      obtain ⟨post_checked, s2⟩ := ps
      cases happ : ops.apply_and_store_block s2 post_checked b with
      | error e => simp [hpost, happ]
      | ok as3 =>
        obtain ⟨applied, s3⟩ := as3
        simp [hpost, happ]

/-- Exercises C5 on a concrete new block: pre-check classifies it as new,
post-check and application succeed, and the applied reference is
returned. -/
theorem C5_witness : handle_block exOps 0 (exBlock 1 10) = .ok (1, 1) :=
  C5_handle_block_classification exOps 0 (exBlock 1 10)
    (.HeaderWithCache (exHeader 1) 0) 0 rfl

/-- C6: a stream item carrying a block whose hash equals the chain's
genesis hash is skipped entirely: the rest of the run is identical in
every observable (same result, same `process_new_ref` trace, same tracker
counters, same reports, same storage state) to the run without that item.
Since this holds for every collaborator `ops`, the genesis block reaches
neither `pre_check_header` / `post_check_header` / `apply_and_store_block`
nor the progress counters, and the last-known-good reference `acc` is
unchanged. -/
theorem C6_genesis_item_is_skipped {σ : Type} (ops : BlockchainOps σ)
    (clock : List ℚ) (s : σ) (info : BootstrapInfo) (acc : Option Ref)
    (g : Block) (rest : List (Except Error Block))
    (hg : g.header.hash = ops.block0) :
    bootstrap_loop ops clock s info acc (.ok g :: rest) =
      bootstrap_loop ops clock s info acc rest := by
  simp [bootstrap_loop, hg]

/-- Exercises C6: a re-delivered genesis block in front of an empty rest
stream changes nothing. -/
theorem C6_witness :
    bootstrap_loop exOps [] 0 (BootstrapInfo.new 0) none [.ok (exBlock 0 4)] =
      bootstrap_loop exOps [] 0 (BootstrapInfo.new 0) none [] :=
  C6_genesis_item_is_skipped exOps [] 0 (BootstrapInfo.new 0) none
    (exBlock 0 4) [] rfl

/-- C8: for each accepted (non-genesis) block the tracker adds the block's
serialized size to the byte counter, increments the block counter by one,
and records the block's description; and in the loop a rate report is
emitted at that step exactly when the new accepted-block count is a
positive multiple of the cadence `PROCESS_LOGGING_DISTANCE`, which is
2500. -/
theorem C8_tracker_and_report_cadence {σ : Type} (ops : BlockchainOps σ)
    (clock : List ℚ) (s : σ) (info : BootstrapInfo) (acc : Option Ref)
    (b : Block) (rest : List (Except Error Block))
    (hg : b.header.hash ≠ ops.block0) :
    (info.append_block b).bytes_received = info.bytes_received + b.size ∧
    (info.append_block b).block_received = info.block_received + 1 ∧
    (info.append_block b).last_block_description = some b.header.desc ∧
    PROCESS_LOGGING_DISTANCE = 2500 ∧
    (∃ tail,
      (bootstrap_loop ops clock s info acc (.ok b :: rest)).reports =
        (if (info.block_received + 1) % PROCESS_LOGGING_DISTANCE = 0
         then [info.block_received + 1] else []) ++ tail) ∧
    ((info.block_received + 1) % PROCESS_LOGGING_DISTANCE = 0 ↔
      ∃ k, 0 < k ∧ info.block_received + 1 = PROCESS_LOGGING_DISTANCE * k) := by
  refine ⟨rfl, rfl, rfl, rfl, ?_, ?_⟩
  · have hev : (stepReport clock (info.append_block b)).2.2 =
        if (info.block_received + 1) % PROCESS_LOGGING_DISTANCE = 0
        then [info.block_received + 1] else [] := by
      rw [stepReport_events]
      rfl
    cases hb : handle_block ops s b with
    | ok rs =>
      obtain ⟨r, s1⟩ := rs
      refine ⟨(bootstrap_loop ops (stepReport clock (info.append_block b)).1 s1
          (stepReport clock (info.append_block b)).2.1 (some r) rest).reports, ?_⟩
      simp only [bootstrap_loop, if_neg hg, hb, withReports, hev]
    | error e =>
      refine ⟨(haltWith ops s (stepReport clock (info.append_block b)).2.1 acc e).reports, ?_⟩
      simp only [bootstrap_loop, if_neg hg, hb, withReports, hev]
  · constructor
    · intro hmod
      obtain ⟨k, hk⟩ := Nat.dvd_of_mod_eq_zero hmod
      refine ⟨k, ?_, hk⟩
      rcases Nat.eq_zero_or_pos k with h0 | h0
      · subst h0
        rw [Nat.mul_zero] at hk
        exact absurd hk (Nat.succ_ne_zero _)
      · exact h0
    · rintro ⟨k, hk0, hk⟩
      rw [hk]
      exact Nat.mul_mod_right _ _

/-- Exercises C8 at the cadence boundary: the 2500th accepted block
triggers a report recorded at count 2500. -/
theorem C8_witness :
    (exInfo2499.append_block (exBlock 1 10)).bytes_received =
        exInfo2499.bytes_received + (exBlock 1 10).size ∧
    (exInfo2499.append_block (exBlock 1 10)).block_received =
        exInfo2499.block_received + 1 ∧
    (exInfo2499.append_block (exBlock 1 10)).last_block_description =
        some (exBlock 1 10).header.desc ∧
    PROCESS_LOGGING_DISTANCE = 2500 ∧
    (∃ tail,
      (bootstrap_loop exOps [1] 0 exInfo2499 none
          (.ok (exBlock 1 10) :: [])).reports =
        (if (exInfo2499.block_received + 1) % PROCESS_LOGGING_DISTANCE = 0
         then [exInfo2499.block_received + 1] else []) ++ tail) ∧
    ((exInfo2499.block_received + 1) % PROCESS_LOGGING_DISTANCE = 0 ↔
      ∃ k, 0 < k ∧ exInfo2499.block_received + 1 = PROCESS_LOGGING_DISTANCE * k) :=
  C8_tracker_and_report_cadence exOps [1] 0 exInfo2499 none (exBlock 1 10) []
    (by decide)

/-- C3: the merged stream polls the cancellation signal first on every
poll.  While the signal is pending, the poll defers to the block stream,
yielding its next item with stream-level errors mapped to
`PullStreamFailed`; once the signal has fired, the poll yields
`Err(Interrupted)` whatever the block stream would do (so the stream is
not pulled), and — by the `Shared` receiver contract `SharedTrace` — every
later poll yields that same outcome: the merger is terminal. -/
theorem C3_merged_stream_priority_and_terminality :
    (∀ b, merged_poll .pending (.ready (some (.ok b))) = .item (.ok b)) ∧
    (∀ e, merged_poll .pending (.ready (some (.error e))) =
       .item (.error (.PullStreamFailed e))) ∧
    (merged_poll .pending (.ready none) = .ended) ∧
    (merged_poll .pending .pending = .pending) ∧
    (∀ sp, merged_poll .fired sp = .item (.error .Interrupted)) ∧
    (∀ (f : Nat → StopperPoll) (g : Nat → StreamPoll) (n m : Nat),
       SharedTrace f → f n = .fired → n ≤ m →
       merged_poll (f m) (g m) = .item (.error .Interrupted)) := by
  refine ⟨fun _ => rfl, fun _ => rfl, rfl, rfl, fun _ => rfl, ?_⟩
  intro f g n m hf hn hnm
  have hm : f m = .fired := by
    induction hnm with
    | refl => exact hn
    | step _ ih => exact (hf _).1 ih
  rw [hm]
  rfl

/-- Exercises C3's terminality on a concrete fired trace: two polls after
the firing still yield `Interrupted`. -/
theorem C3_witness :
    merged_poll ((fun _ => StopperPoll.fired) 2) ((fun _ => StreamPoll.pending) 2) =
      .item (.error .Interrupted) :=
  C3_merged_stream_priority_and_terminality.2.2.2.2.2
    (fun _ => StopperPoll.fired) (fun _ => StreamPoll.pending) 0 2
    (fun _ => ⟨fun _ => rfl, fun h => h⟩) rfl (by omega)

/-- C4: the whole setup sequence of `bootstrap_from_peer` is raced against
the cancellation signal.  If the signal wins, the function returns
`Interrupted` — for every streaming continuation `runStream`, so no stream
item is ever consumed; if the setup wins with a stream, streaming proceeds
on that stream with the very same stopper value the function received
(the race hands the un-consumed stopper on), so the signal stays
observable downstream; a setup failure propagates as its own error. -/
theorem C4_setup_raced_against_cancellation {S T : Type}
    (ops : PeerSetupOps S) (stopper : T) (runStream : S → T → Outcome Unit) :
    (bootstrap_from_peer ops stopper runStream .stopperFired = .err .Interrupted) ∧
    (∀ stream, stream_future ops = .ok stream →
       bootstrap_from_peer ops stopper runStream .setupFirst = runStream stream stopper) ∧
    (∀ e, stream_future ops = .error e →
       bootstrap_from_peer ops stopper runStream .setupFirst = .err e) := by
  refine ⟨rfl, ?_, ?_⟩
  · intro stream h
    simp [bootstrap_from_peer, h]
  · intro e h
    simp [bootstrap_from_peer, h]

/-- Exercises C4: on a successful concrete setup the continuation runs
with the obtained stream handle 7 and the original stopper 5; with the
signal winning, the run is `Interrupted`. -/
theorem C4_witness :
    bootstrap_from_peer exSetup (5 : Nat) exRun .setupFirst = .ok () ∧
    bootstrap_from_peer exSetup (5 : Nat) exRun .stopperFired = .err .Interrupted := by
  constructor
  · have h := (C4_setup_raced_against_cancellation exSetup (5 : Nat) exRun).2.1 7 rfl
    rw [h]
    rfl
  · exact (C4_setup_raced_against_cancellation exSetup (5 : Nat) exRun).1

/-- C9: `peers_from_trusted_peer` maps a connect failure to `Connect`, a
readiness failure to `ClientNotReady`, a peer-list failure to
`PeersNotAvailable`, and on success returns `Peer::new` of each returned
address, one per address in the same order (the result is literally the
`map` of the returned list), with each collaborator called at most once
(no retry appears in any branch). -/
theorem C9_peer_discovery_mapping :
    (∀ e : ConnectError, peers_from_trusted_peer (.error e) = .error (.Connect e)) ∧
    (∀ c e, c.ready = .error e →
       peers_from_trusted_peer (.ok c) = .error (.ClientNotReady e)) ∧
    (∀ c rc e, c.ready = .ok rc → rc.peers = .error e →
       peers_from_trusted_peer (.ok c) = .error (.PeersNotAvailable e)) ∧
    (∀ c rc resp, c.ready = .ok rc → rc.peers = .ok resp →
       peers_from_trusted_peer (.ok c) =
         .ok (resp.peers.map (fun peer => Peer.new peer.addr))) := by
  refine ⟨fun _ => rfl, ?_, ?_, ?_⟩
  · intro c e h
    simp [peers_from_trusted_peer, h]
  · intro c rc e h1 h2
    simp [peers_from_trusted_peer, h1, h2]
  · intro c rc resp h1 h2
    simp [peers_from_trusted_peer, h1, h2]

/-- Exercises C9 on a concrete two-address peer list. -/
theorem C9_witness :
    peers_from_trusted_peer (.ok exConnected) = .ok [Peer.new 3, Peer.new 9] :=
  C9_peer_discovery_mapping.2.2.2 exConnected
    { peers := .ok { peers := [⟨3⟩, ⟨9⟩] } } { peers := [⟨3⟩, ⟨9⟩] } rfl rfl

/-- C10: a cancellation receiver that completes with the channel-closed
error (sender dropped without firing) makes both the setup race of
`bootstrap_from_peer` and the merged stream of `bootstrap_from_stream`
abort fatally with the source's panic message `"failed to wait for
SIGINT"`; in neither place is this outcome delivered as `Interrupted` or
any ordinary error/item. -/
theorem C10_dropped_stopper_aborts :
    (∀ (S T : Type) (ops : PeerSetupOps S) (stopper : T)
       (runStream : S → T → Outcome Unit),
       bootstrap_from_peer ops stopper runStream .stopperDropped =
         .fatal "failed to wait for SIGINT") ∧
    (∀ sp, merged_poll .dropped sp = .fatal "failed to wait for SIGINT") ∧
    (∀ (S T : Type) (ops : PeerSetupOps S) (stopper : T)
       (runStream : S → T → Outcome Unit) (e : Error),
       bootstrap_from_peer ops stopper runStream .stopperDropped ≠ .err e) ∧
    (∀ sp x, merged_poll .dropped sp ≠ .item x) := by
  refine ⟨fun _ _ _ _ _ => rfl, fun _ => rfl, ?_, ?_⟩
  · intro S T ops stopper runStream e
    simp [bootstrap_from_peer]
  · intro sp x
    simp [merged_poll]

/-- Exercises C10 at concrete instances: both places yield the fatal
outcome, and the merged poll is not the `Interrupted` item. -/
theorem C10_witness :
    bootstrap_from_peer exSetup (0 : Nat) exRun .stopperDropped =
      .fatal "failed to wait for SIGINT" ∧
    merged_poll .dropped .pending ≠ .item (.error .Interrupted) :=
  ⟨C10_dropped_stopper_aborts.1 Nat Nat exSetup 0 exRun,
   C10_dropped_stopper_aborts.2.2.2 .pending (.error .Interrupted)⟩

lemma print_sz_of_mb {n : ℚ} (h : 1000000 < n) :
    print_sz n = ⟨.mb, n / (1024 * 1024)⟩ := by
  simp [print_sz, h]

lemma print_sz_of_kb {n : ℚ} (h1 : n ≤ 1000000) (h2 : 1000 < n) :
    print_sz n = ⟨.kb, n / 1024⟩ := by
  simp [print_sz, not_lt.mpr h1, h2]

lemma print_sz_of_b {n : ℚ} (h : n ≤ 1000) :
    print_sz n = ⟨.b, n⟩ := by
  have h1 : ¬ (1000000 : ℚ) < n := not_lt.mpr (h.trans (by norm_num))
  simp [print_sz, h1, not_lt.mpr h]

/-- C7 as stated is false at the boundary magnitude n = 1,000,000: the
source's threshold is the strict `n > 1_000_000.0`, so exactly 1,000,000
is rendered in kilobytes although the claim's `n ≥ 1,000,000` demands
megabytes. -/
theorem C7_counterexample :
    ¬ ((print_sz 1000000).unit = SzUnit.mb ↔ (1000000 : ℚ) ≥ 1000000) := by
  intro hiff
  have hkb : print_sz (1000000 : ℚ) = ⟨.kb, 1000000 / 1024⟩ :=
    print_sz_of_kb (le_refl _) (by norm_num)
  have := hiff.mpr (le_refl _)
  rw [hkb] at this
  exact SzUnit.noConfusion this

/-- C7 amended: a magnitude n is rendered in megabytes iff n > 1,000,000
(divided by 1024*1024), in kilobytes iff 1,000 < n ≤ 1,000,000 (divided
by 1024), and in plain bytes otherwise (n ≤ 1,000, undivided); and the
throughput figure is rendered as "N/A" exactly when the elapsed
wall-clock time since the last report cannot be measured (the clock moved
backward: the current sample is earlier than `last_reported`). -/
theorem C7_amended_strict_thresholds :
    (∀ n : ℚ,
      ((print_sz n).unit = .mb ↔ 1000000 < n) ∧
      ((print_sz n).unit = .kb ↔ 1000 < n ∧ n ≤ 1000000) ∧
      ((print_sz n).unit = .b ↔ n ≤ 1000) ∧
      ((print_sz n).unit = .mb → (print_sz n).value = n / (1024 * 1024)) ∧
      ((print_sz n).unit = .kb → (print_sz n).value = n / 1024) ∧
      ((print_sz n).unit = .b → (print_sz n).value = n)) ∧
    (∀ (info : BootstrapInfo) (current : ℚ),
      ((info.report current).2.kbs = none ↔ current < info.last_reported)) := by
  constructor
  · intro n
    rcases le_or_lt n 1000 with hb | h2
    · rw [print_sz_of_b hb]
      refine ⟨?_, ?_, ?_, ?_, ?_, ?_⟩ <;> simp
      · linarith
      · intro h; linarith
      · exact hb
    · rcases le_or_lt n 1000000 with hk | hm
      · rw [print_sz_of_kb hk h2]
        refine ⟨?_, ?_, ?_, ?_, ?_, ?_⟩ <;> simp
        · linarith
        · exact ⟨h2, hk⟩
        · linarith
      · rw [print_sz_of_mb hm]
        refine ⟨?_, ?_, ?_, ?_, ?_, ?_⟩ <;> simp
        · exact hm
        · intro h; linarith
        · linarith
  · intro info current
    show (duration_since current info.last_reported).map _ = none ↔ _
    rw [Option.map_eq_none']
    unfold duration_since
    split_ifs with h
    · simp
      linarith
    · simp
      linarith

/-- Exercises the amended C7: at n = 1,000,000 the unit is kilobytes, and
a backward clock renders the throughput as "N/A". -/
theorem C7_witness :
    (print_sz 1000000).unit = SzUnit.kb ∧
    ((exInfo2499.report (-1)).2.kbs = none ↔ (-1 : ℚ) < exInfo2499.last_reported) :=
  ⟨(C7_amended_strict_thresholds.1 1000000).2.1.mpr ⟨by norm_num, by norm_num⟩,
   C7_amended_strict_thresholds.2 exInfo2499 (-1)⟩

end Jormungandr
